import Mathlib

/-!
Formal model of `rocon_interactions/manager.py` (InteractionsManager), the
presence/quota core of the rocon_concert repository.

The embedding models:
* the reconciliation loop `InteractionsManager.spin` (lines 69-94) over the
  key set of the `_remocon_monitors` dictionary;
* the snapshot publisher `_ros_publish_interactive_clients` (lines 137-150);
* the request handlers `_ros_service_set_interactions` (lines 182-203) and
  `_ros_service_request_interaction` (lines 205-234), including the Python
  runtime errors those handlers actually raise.
-/

namespace RoconInteractions

/-! ## Reconciliation loop (`InteractionsManager.spin`, manager.py lines 69-94)

The loop's state that the reconciliation step mutates is the dictionary
`self._remocon_monitors : topic_name -> RemoconMonitor`.  The reconciliation
step only inserts and deletes keys, so we model the dictionary by its key
list (unique keys, insertion order).  Each iteration of either `for` loop in
the source calls `self._ros_publish_interactive_clients()` once; we count
those publications. -/

/-- The lambda `diff = lambda l1, l2: [x for x in l1 if x not in l2]`
(manager.py line 75). -/
def pyDiff (l1 l2 : List String) : List String :=
  l1.filter (fun x => ! l2.contains x)

/-- Key-set effect of `self._remocon_monitors[remocon_topic] = RemoconMonitor(...)`
(manager.py line 82): a Python dict assignment adds the key if absent,
otherwise overwrites the value leaving the key set unchanged. -/
def dictInsert (t : List String) (k : String) : List String :=
  if t.contains k then t else t ++ [k]

/-- One pass of the body of the `try` block in `InteractionsManager.spin`
(manager.py lines 78-89), given the topics listed by the master:
computes `new_remocon_topics` and `lost_remocon_topics` with `diff`,
then for each new topic registers a monitor and publishes the
interactive-clients snapshot, then for each lost topic unregisters the
monitor, deletes it and publishes the snapshot.
Returns the new key list of `_remocon_monitors` and the number of
`_ros_publish_interactive_clients()` calls made during the pass. -/
def spinPass (tracked listed : List String) : List String × Nat :=
  let new_remocon_topics := pyDiff listed tracked
  let lost_remocon_topics := pyDiff tracked listed
  let afterNew := new_remocon_topics.foldl
    (fun (acc : List String × Nat) topic => (dictInsert acc.1 topic, acc.2 + 1))
    (tracked, 0)
  let afterLost := lost_remocon_topics.foldl
    (fun (acc : List String × Nat) topic => (acc.1.erase topic, acc.2 + 1))
    afterNew
  afterLost

/-- The exceptions `rosgraph.masterapi.Error` and `rosgraph.masterapi.Failure`, the two
exceptions caught by `spin`'s `except` clauses (manager.py lines 90-93). -/
inductive MasterError
  | error
  | failure
deriving Repr, DecidableEq

/-- Result of one iteration of the `while` loop in `spin`: the new monitor
key list, the number of snapshot publications, and the log lines emitted. -/
structure CycleResult where
  monitors : List String
  publish_count : Nat
  logs : List String
deriving Repr, DecidableEq

/-- One full iteration of the `while` loop in `InteractionsManager.spin`
(manager.py lines 73-94).  The master listing either succeeds with a topic
list or raises one of the two `rosgraph.masterapi` exceptions; the `except`
clauses catch either exception, log with `rospy.logerr` and fall through to
the sleep, leaving `_remocon_monitors` untouched. -/
def spinCycle (tracked : List String) (listing : Except MasterError (List String)) :
    CycleResult :=
  match listing with
  | Except.ok listed =>
    let p := spinPass tracked listed
    { monitors := p.1
      publish_count := p.2
      logs :=
        (pyDiff listed tracked).map
          (fun topic => "loginfo: new remocon connected " ++ topic) ++
        (pyDiff tracked listed).map
          (fun topic => "loginfo: remocon left " ++ topic) }
  | Except.error MasterError.error =>
    { monitors := tracked
      publish_count := 0
      logs := ["logerr: error trying to retrieve information from the local master."] }
  | Except.error MasterError.failure =>
    { monitors := tracked
      publish_count := 0
      logs := ["logerr: failure trying to retrieve information from the local master."] }

/-- The `while` loop of `InteractionsManager.spin` run over a finite schedule
of master-listing outcomes, returning the final `_remocon_monitors` key list. -/
def spin (tracked : List String) (listings : List (Except MasterError (List String))) :
    List String :=
  listings.foldl (fun t l => (spinCycle t l).monitors) tracked

/-! ### Lemmas about the reconciliation step -/

lemma foldl_step_pair (f : List String → String → List String) :
    ∀ (l t : List String) (c : Nat),
      l.foldl (fun (acc : List String × Nat) topic => (f acc.1 topic, acc.2 + 1)) (t, c)
        = (l.foldl f t, c + l.length)
  | [], t, c => by simp
  | topic :: rest, t, c => by
    simpa [List.foldl_cons, Nat.add_assoc, Nat.add_comm 1 rest.length]
      using foldl_step_pair f rest (f t topic) (c + 1)

lemma spinPass_fst (tracked listed : List String) :
    (spinPass tracked listed).1
      = (pyDiff tracked listed).foldl List.erase
          ((pyDiff listed tracked).foldl dictInsert tracked) := by
  simp [spinPass, foldl_step_pair]

lemma spinPass_snd (tracked listed : List String) :
    (spinPass tracked listed).2
      = (pyDiff listed tracked).length + (pyDiff tracked listed).length := by
  simp [spinPass, foldl_step_pair, Nat.add_comm]

lemma mem_pyDiff {x : String} {l1 l2 : List String} :
    x ∈ pyDiff l1 l2 ↔ x ∈ l1 ∧ x ∉ l2 := by
  simp [pyDiff, List.mem_filter, List.elem_iff]

lemma mem_dictInsert {x k : String} {t : List String} :
    x ∈ dictInsert t k ↔ x ∈ t ∨ x = k := by
  unfold dictInsert
  by_cases hk : t.contains k
  · rw [if_pos hk]
    constructor
    · exact Or.inl
    · rintro (h | h)
      · exact h
      · exact h ▸ List.elem_iff.mp hk
  · rw [if_neg hk]
    simp

lemma count_dictInsert_of_ne {x k : String} {t : List String} (hxk : x ≠ k) :
    (dictInsert t k).count x = t.count x := by
  unfold dictInsert
  by_cases hk : t.contains k
  · rw [if_pos hk]
  · rw [if_neg hk]
    simp [List.count_append, hxk]

lemma mem_foldl_dictInsert {x : String} :
    ∀ (l t : List String), x ∈ l.foldl dictInsert t ↔ x ∈ t ∨ x ∈ l
  | [], t => by simp
  | k :: rest, t => by
    rw [List.foldl_cons, mem_foldl_dictInsert rest (dictInsert t k)]
    rw [mem_dictInsert, List.mem_cons]
    tauto

lemma count_foldl_dictInsert_of_not_mem {x : String} :
    ∀ (l t : List String), x ∉ l → (l.foldl dictInsert t).count x = t.count x
  | [], _, _ => by simp
  | k :: rest, t, h => by
    have hxk : x ≠ k := fun hx => h (hx ▸ List.mem_cons_self k rest)
    have hrest : x ∉ rest := fun hx => h (List.mem_cons_of_mem k hx)
    rw [List.foldl_cons, count_foldl_dictInsert_of_not_mem rest (dictInsert t k) hrest,
      count_dictInsert_of_ne hxk]

lemma count_foldl_erase {x : String} :
    ∀ (l t : List String), (l.foldl List.erase t).count x = t.count x - l.count x
  | [], t => by simp
  | k :: rest, t => by
    rw [List.foldl_cons, count_foldl_erase rest (t.erase k)]
    by_cases hk : x = k
    · subst hk
      rw [List.count_erase_self, List.count_cons_self, Nat.sub_sub, Nat.add_comm]
    · rw [List.count_erase_of_ne hk, List.count_cons_of_ne hk]

/-- After one reconciliation pass, membership in the tracked key list agrees
exactly with membership in the topics the master listed. -/
lemma spinPass_mem (tracked listed : List String) (x : String) :
    x ∈ (spinPass tracked listed).1 ↔ x ∈ listed := by
  rw [spinPass_fst]
  by_cases hx : x ∈ listed
  · have hlost : x ∉ pyDiff tracked listed := fun h => (mem_pyDiff.mp h).2 hx
    have hlostc : (pyDiff tracked listed).count x = 0 := List.count_eq_zero.mpr hlost
    have hmem : x ∈ (pyDiff listed tracked).foldl dictInsert tracked := by
      rw [mem_foldl_dictInsert]
      by_cases ht : x ∈ tracked
      · exact Or.inl ht
      · exact Or.inr (mem_pyDiff.mpr ⟨hx, ht⟩)
    have : 0 < ((pyDiff tracked listed).foldl List.erase
        ((pyDiff listed tracked).foldl dictInsert tracked)).count x := by
      rw [count_foldl_erase, hlostc, Nat.sub_zero]
      exact List.count_pos_iff.mpr hmem
    simpa [hx] using List.count_pos_iff.mp this
  · have hnew : x ∉ pyDiff listed tracked := fun h => hx (mem_pyDiff.mp h).1
    have h1 : ((pyDiff listed tracked).foldl dictInsert tracked).count x
        = tracked.count x :=
      count_foldl_dictInsert_of_not_mem _ _ hnew
    have h2 : (pyDiff tracked listed).count x = tracked.count x := by
      have hpx : (fun y => ! listed.contains y) x = true := by
        simp [List.elem_iff, hx]
      exact List.count_filter hpx
    have hz : ((pyDiff tracked listed).foldl List.erase
        ((pyDiff listed tracked).foldl dictInsert tracked)).count x = 0 := by
      rw [count_foldl_erase, h1, h2, Nat.sub_self]
    constructor
    · intro hmem
      exact absurd (List.count_pos_iff.mpr hmem) (by omega)
    · intro h
      exact absurd h hx

/-- A pass against a listing whose membership already matches the tracked
list does nothing: no key changes and no publication. -/
lemma spinPass_of_mem_eq (tracked listed : List String)
    (h : ∀ x, x ∈ tracked ↔ x ∈ listed) :
    spinPass tracked listed = (tracked, 0) := by
  have hnew : pyDiff listed tracked = [] := by
    rw [pyDiff, List.filter_eq_nil_iff]
    intro a ha
    simp [List.elem_iff, (h a).mpr ha]
  have hlost : pyDiff tracked listed = [] := by
    rw [pyDiff, List.filter_eq_nil_iff]
    intro a ha
    simp [List.elem_iff, (h a).mp ha]
  simp [spinPass, hnew, hlost]

/-! ### Claim theorems about the reconciliation loop -/

/-- C5 counterexample: with no tracked monitors and two newly listed topics
the pass calls the interactive-clients publication twice, not exactly once,
even though the new/lost sets are not both empty. -/
theorem spin_publish_once_per_pass_cex :
    pyDiff ["remoconA", "remoconB"] ([] : List String) ≠ [] ∧
    (spinPass [] ["remoconA", "remoconB"]).2 = 2 ∧
    (spinPass [] ["remoconA", "remoconB"]).2 ≠ 1 := by
  refine ⟨by decide, by decide, by decide⟩

/-- C5 amended: during one reconciliation pass the interactive-clients
snapshot publication is fired once per newly listed topic and once per lost
topic — `|new| + |lost|` times in total — hence at least once when the two
sets are not both empty, but more than once when they hold more than one
entry together. -/
theorem spin_publish_count_amended (tracked listed : List String) :
    (spinPass tracked listed).2
      = (pyDiff listed tracked).length + (pyDiff tracked listed).length :=
  spinPass_snd tracked listed

/-- C6: running the reconciliation step a second time against the same
listing leaves the tracked-monitor key list exactly unchanged and fires no
interactive-clients publication on the second call. -/
theorem spin_reconcile_idempotent (tracked listed : List String) :
    spinPass (spinPass tracked listed).1 listed = ((spinPass tracked listed).1, 0) :=
  spinPass_of_mem_eq _ _ (spinPass_mem tracked listed)

/-- C7: after any reconciliation pass, whatever the previously tracked key
list was, the tracked channel set equals exactly the set of topics returned
by the most recent master listing. -/
theorem spin_membership_convergence (tracked listed : List String) (x : String) :
    x ∈ (spinPass tracked listed).1 ↔ x ∈ listed :=
  spinPass_mem tracked listed x

/-- C8: when the master listing raises either `rosgraph.masterapi` exception,
the cycle leaves the tracked-monitor map unchanged, publishes nothing, logs
the error, and the loop proceeds: a schedule containing the failing cycle
ends in the same state as the schedule without it. -/
theorem spin_master_error_skips_cycle (tracked : List String) (e : MasterError)
    (pre post : List (Except MasterError (List String))) :
    (spinCycle tracked (Except.error e)).monitors = tracked ∧
    (spinCycle tracked (Except.error e)).publish_count = 0 ∧
    (spinCycle tracked (Except.error e)).logs ≠ [] ∧
    spin tracked (pre ++ Except.error e :: post) = spin tracked (pre ++ post) := by
  refine ⟨?_, ?_, ?_, ?_⟩
  · cases e <;> rfl
  · cases e <;> rfl
  · cases e <;> simp [spinCycle]
  · rw [spin, spin, List.foldl_append, List.foldl_append, List.foldl_cons]
    cases e <;> rfl

/-! ## Interactive-clients snapshot (`_ros_publish_interactive_clients`,
manager.py lines 137-150) -/

/-- The latest self-reported status held by a `RemoconMonitor`: the fields of
`remocon.status` read by manager.py (`uuid`, `platform_info`, `running_app`,
`app_name`). -/
structure RemoconStatus where
  uuid : String
  platform_info : String
  running_app : Bool
  app_name : String
deriving Repr, DecidableEq

/-- A `RemoconMonitor` as read by manager.py: its `name` and its latest
`status`, which is `None` until the first status message arrives. -/
structure RemoconMonitor where
  name : String
  status : Option RemoconStatus
deriving Repr, DecidableEq

/-- One `concert_msgs.InteractiveClient` message.  ROS message fields default
to empty strings, so `app_name` is `""` unless the handler assigns it.  The
`id` field is `unique_id.toMsg(uuid.UUID(remocon.status.uuid))`; we model the
round-trip through the uuid types as the identity on the uuid string. -/
structure InteractiveClient where
  id : String
  name : String
  platform_info : String
  app_name : String
deriving Repr, DecidableEq

/-- One `concert_msgs.InteractiveClients` message. -/
structure InteractiveClients where
  running_clients : List InteractiveClient
  idle_clients : List InteractiveClient
deriving Repr, DecidableEq

/-- The `interactive_client` record built at manager.py lines 141-146 for a
monitor whose status is known: `app_name` is assigned only inside the
`if remocon.status.running_app` branch and keeps the message default `""`
otherwise. -/
def interactiveClientOf (remocon : RemoconMonitor) (status : RemoconStatus) :
    InteractiveClient :=
  { id := status.uuid
    name := remocon.name
    platform_info := status.platform_info
    app_name := if status.running_app then status.app_name else "" }

/-- The publisher `_ros_publish_interactive_clients` (manager.py lines 137-150): iterates
over `self._remocon_monitors.values()`, skips monitors with `status is None`,
and appends each remaining client to `running_clients` when its status says
`running_app` and to `idle_clients` otherwise.  Returns the published
message. -/
def rosPublishInteractiveClients : List RemoconMonitor → InteractiveClients
  | [] => { running_clients := [], idle_clients := [] }
  | remocon :: rest =>
    let acc := rosPublishInteractiveClients rest
    match remocon.status with
    | none => acc
    | some status =>
      let c := interactiveClientOf remocon status
      if status.running_app then
        { acc with running_clients := c :: acc.running_clients }
      else
        { acc with idle_clients := c :: acc.idle_clients }

lemma publish_cons_none {m : RemoconMonitor} {rest : List RemoconMonitor}
    (h : m.status = none) :
    rosPublishInteractiveClients (m :: rest) = rosPublishInteractiveClients rest := by
  rw [rosPublishInteractiveClients, h]

lemma publish_cons_running {m : RemoconMonitor} {rest : List RemoconMonitor}
    {s : RemoconStatus} (h : m.status = some s) (hr : s.running_app = true) :
    rosPublishInteractiveClients (m :: rest)
      = { running_clients :=
            interactiveClientOf m s :: (rosPublishInteractiveClients rest).running_clients
          idle_clients := (rosPublishInteractiveClients rest).idle_clients } := by
  rw [rosPublishInteractiveClients, h]
  simp [hr]

lemma publish_cons_idle {m : RemoconMonitor} {rest : List RemoconMonitor}
    {s : RemoconStatus} (h : m.status = some s) (hr : s.running_app = false) :
    rosPublishInteractiveClients (m :: rest)
      = { running_clients := (rosPublishInteractiveClients rest).running_clients
          idle_clients :=
            interactiveClientOf m s :: (rosPublishInteractiveClients rest).idle_clients } := by
  rw [rosPublishInteractiveClients, h]
  simp [hr]

lemma idle_clients_app_name_empty :
    ∀ (ms : List RemoconMonitor) (c : InteractiveClient),
      c ∈ (rosPublishInteractiveClients ms).idle_clients → c.app_name = ""
  | [], c => by simp [rosPublishInteractiveClients]
  | m :: rest, c => by
    intro hc
    rcases hst : m.status with _ | status
    · rw [publish_cons_none hst] at hc
      exact idle_clients_app_name_empty rest c hc
    · by_cases hr : status.running_app
      · rw [publish_cons_running hst hr] at hc
        exact idle_clients_app_name_empty rest c hc
      · rw [publish_cons_idle hst (Bool.not_eq_true _ ▸ hr)] at hc
        rcases List.mem_cons.mp hc with hceq | hc
        · subst hceq
          simp [interactiveClientOf, hr]
        · exact idle_clients_app_name_empty rest c hc

lemma publish_partition_length :
    ∀ ms : List RemoconMonitor,
      (rosPublishInteractiveClients ms).running_clients.length
        + (rosPublishInteractiveClients ms).idle_clients.length
        = (ms.filter (fun m => m.status.isSome)).length
  | [] => by simp [rosPublishInteractiveClients]
  | m :: rest => by
    rcases hst : m.status with _ | status
    · rw [publish_cons_none hst]
      simpa [hst] using publish_partition_length rest
    · by_cases hr : status.running_app
      · rw [publish_cons_running hst hr]
        have ih := publish_partition_length rest
        simp [hst]
        omega
      · rw [publish_cons_idle hst (Bool.not_eq_true _ ▸ hr)]
        have ih := publish_partition_length rest
        simp [hst]
        omega

lemma mem_running_clients_of :
    ∀ (ms : List RemoconMonitor) (m : RemoconMonitor) (s : RemoconStatus),
      m ∈ ms → m.status = some s → s.running_app = true →
      interactiveClientOf m s ∈ (rosPublishInteractiveClients ms).running_clients
  | [], _, _, hm, _, _ => absurd hm (List.not_mem_nil _)
  | m0 :: rest, m, s, hm, hs, hr => by
    rcases List.mem_cons.mp hm with hmeq | hm
    · subst hmeq
      rw [publish_cons_running hs hr]
      exact List.mem_cons_self _ _
    · have ih := mem_running_clients_of rest m s hm hs hr
      rcases hst : m0.status with _ | status0
      · rw [publish_cons_none hst]
        exact ih
      · by_cases hr0 : status0.running_app
        · rw [publish_cons_running hst hr0]
          exact List.mem_cons_of_mem _ ih
        · rw [publish_cons_idle hst (Bool.not_eq_true _ ▸ hr0)]
          exact ih

lemma mem_idle_clients_of :
    ∀ (ms : List RemoconMonitor) (m : RemoconMonitor) (s : RemoconStatus),
      m ∈ ms → m.status = some s → s.running_app = false →
      interactiveClientOf m s ∈ (rosPublishInteractiveClients ms).idle_clients
  | [], _, _, hm, _, _ => absurd hm (List.not_mem_nil _)
  | m0 :: rest, m, s, hm, hs, hr => by
    rcases List.mem_cons.mp hm with hmeq | hm
    · subst hmeq
      rw [publish_cons_idle hs hr]
      exact List.mem_cons_self _ _
    · have ih := mem_idle_clients_of rest m s hm hs hr
      rcases hst : m0.status with _ | status0
      · rw [publish_cons_none hst]
        exact ih
      · by_cases hr0 : status0.running_app
        · rw [publish_cons_running hst hr0]
          exact ih
        · rw [publish_cons_idle hst (Bool.not_eq_true _ ▸ hr0)]
          exact List.mem_cons_of_mem _ ih

/-- Concrete monitor reporting a running application, used as witness data. -/
def wRunningStatus : RemoconStatus :=
  { uuid := "11112222", platform_info := "pc", running_app := true, app_name := "chat_app" }

/-- Concrete monitor reporting an idle client, used as witness data. -/
def wIdleStatus : RemoconStatus :=
  { uuid := "33334444", platform_info := "android", running_app := false, app_name := "" }

def wRunningMonitor : RemoconMonitor :=
  { name := "remoconA", status := some wRunningStatus }

def wIdleMonitor : RemoconMonitor :=
  { name := "remoconB", status := some wIdleStatus }

/-- Concrete monitor that has not yet received any status update. -/
def wUnknownMonitor : RemoconMonitor :=
  { name := "remoconC", status := none }

/-- C9: every published interactive-clients snapshot partitions the clients
with a known status: a monitored client whose status reports a running
application appears in `running_clients` (with `app_name` populated from its
status), one whose status reports no running application appears in
`idle_clients`, every idle entry has an empty `app_name`, and the two lists
together account exactly for the monitors with a known status. -/
theorem interactive_clients_partition (ms : List RemoconMonitor)
    (m : RemoconMonitor) (s : RemoconStatus) (hm : m ∈ ms) (hs : m.status = some s) :
    (s.running_app = true →
        interactiveClientOf m s ∈ (rosPublishInteractiveClients ms).running_clients) ∧
    (s.running_app = false →
        interactiveClientOf m s ∈ (rosPublishInteractiveClients ms).idle_clients) ∧
    (s.running_app = true → (interactiveClientOf m s).app_name = s.app_name) ∧
    (∀ c ∈ (rosPublishInteractiveClients ms).idle_clients, c.app_name = "") ∧
    (rosPublishInteractiveClients ms).running_clients.length
        + (rosPublishInteractiveClients ms).idle_clients.length
      = (ms.filter (fun mm => mm.status.isSome)).length :=
  ⟨fun hr => mem_running_clients_of ms m s hm hs hr,
   fun hr => mem_idle_clients_of ms m s hm hs hr,
   fun hr => by simp [interactiveClientOf, hr],
   fun c hc => idle_clients_app_name_empty ms c hc,
   publish_partition_length ms⟩

/-- C9 witness: the partition property evaluated on a concrete pair of
monitors, one running and one idle. -/
theorem interactive_clients_partition_witness :
    (wRunningStatus.running_app = true →
        interactiveClientOf wRunningMonitor wRunningStatus ∈
          (rosPublishInteractiveClients [wRunningMonitor, wIdleMonitor]).running_clients) ∧
    (wRunningStatus.running_app = false →
        interactiveClientOf wRunningMonitor wRunningStatus ∈
          (rosPublishInteractiveClients [wRunningMonitor, wIdleMonitor]).idle_clients) ∧
    (wRunningStatus.running_app = true →
        (interactiveClientOf wRunningMonitor wRunningStatus).app_name
          = wRunningStatus.app_name) ∧
    (∀ c ∈ (rosPublishInteractiveClients [wRunningMonitor, wIdleMonitor]).idle_clients,
        c.app_name = "") ∧
    (rosPublishInteractiveClients [wRunningMonitor, wIdleMonitor]).running_clients.length
        + (rosPublishInteractiveClients [wRunningMonitor, wIdleMonitor]).idle_clients.length
      = ([wRunningMonitor, wIdleMonitor].filter (fun mm => mm.status.isSome)).length :=
  interactive_clients_partition [wRunningMonitor, wIdleMonitor]
    wRunningMonitor wRunningStatus (List.mem_cons_self _ _) rfl

/-- C10: a tracked client whose monitor has not yet received any status
update (`remocon.status is None`) is omitted entirely from the published
snapshot: removing it from the monitor list leaves the published message
unchanged, so it appears in neither `running_clients` nor `idle_clients`. -/
theorem unknown_status_client_omitted (ms1 ms2 : List RemoconMonitor)
    (m : RemoconMonitor) (h : m.status = none) :
    rosPublishInteractiveClients (ms1 ++ m :: ms2)
      = rosPublishInteractiveClients (ms1 ++ ms2) := by
  induction ms1 with
  | nil => simpa using publish_cons_none h
  | cons m0 rest ih =>
    rw [List.cons_append, List.cons_append]
    rcases hst : m0.status with _ | s0
    · rw [publish_cons_none hst, publish_cons_none hst, ih]
    · by_cases hr0 : s0.running_app
      · rw [publish_cons_running hst hr0, publish_cons_running hst hr0, ih]
      · rw [publish_cons_idle hst (Bool.not_eq_true _ ▸ hr0),
          publish_cons_idle hst (Bool.not_eq_true _ ▸ hr0), ih]

/-- C10 witness: a status-less monitor between a running and an idle monitor
contributes nothing to the published snapshot. -/
theorem unknown_status_client_omitted_witness :
    rosPublishInteractiveClients [wRunningMonitor, wUnknownMonitor, wIdleMonitor]
      = rosPublishInteractiveClients [wRunningMonitor, wIdleMonitor] :=
  unknown_status_client_omitted [wRunningMonitor] [wIdleMonitor] wUnknownMonitor rfl

/-! ## Request handlers (`manager.py` lines 182-234) -/

/-- Python runtime errors raised by the request handlers. -/
inductive PyError
  | attrError (missing : String)
  | typeError (msg : String)
deriving Repr, DecidableEq

/-- The three `concert_msgs.ErrorCodes` constants used by
`_ros_service_request_interaction`. -/
inductive ErrorCode
  | SUCCESS
  | ROLE_APP_UNAVAILABLE
  | ROLE_APP_QUOTA_REACHED
deriving Repr, DecidableEq

/-- The constant `concert_msgs.ErrorCodes.MSG_ROLE_APP_UNAVAILABLE` (the concrete text
lives in the external message package; only its identity matters here). -/
def MSG_ROLE_APP_UNAVAILABLE : String := "Role app unavailable"

/-- The constant `concert_msgs.ErrorCodes.MSG_ROLE_APP_QUOTA_REACHED`. -/
def MSG_ROLE_APP_QUOTA_REACHED : String := "Role app quota reached"

/-- The fields of a `concert_msgs.RemoconApp` entry read by the request
handler: `app.name`, `app.namespace` (spelt `namespc`, `namespace` being a
Lean keyword) and `app.max`. -/
structure RemoconApp where
  name : String
  namespc : String
  max : Nat
deriving Repr, DecidableEq

/-- A `concert_srvs.RequestInteractionRequest`: `(role, application,
namespace)` (the last spelt `namespc`). -/
structure Request where
  role : String
  application : String
  namespc : String
deriving Repr, DecidableEq

/-- A `concert_srvs.RequestInteractionResponse`.  ROS message fields default
to `False`/`0`/`""`; the handler immediately sets `result = True` and
`error_code = SUCCESS` (manager.py lines 206-208). -/
structure RequestInteractionResponse where
  result : Bool
  error_code : ErrorCode
  message : String
deriving Repr, DecidableEq

/-- The state of an `InteractionsManager` instance as far as
`_ros_service_request_interaction` can read it.  The class declares
`__slots__ = ['interactions_table', 'publishers', 'parameters', 'services',
'spin', 'platform_info', '_watch_loop_period', '_remocon_monitors']`
(manager.py lines 32-41): `role_and_app_table` is not among them and no
method ever assigns it. -/
structure InteractionsManager where
  remocon_monitors : List RemoconMonitor
deriving Repr, DecidableEq

/-- The handler `_ros_service_request_interaction` (manager.py lines 205-234) as it
actually executes: after constructing the default response (lines 206-209),
line 210 evaluates `self.role_and_app_table.keys()`.  The instance has no
attribute `role_and_app_table` (see `InteractionsManager`), so every call
raises `AttributeError` before any branch of the algorithm runs. -/
def rosServiceRequestInteraction (_self : InteractionsManager) (_request : Request) :
    Except PyError RequestInteractionResponse :=
  Except.error (PyError.attrError "role_and_app_table")

/-- The loop of manager.py lines 211-217: scan the role's app list for the
first entry whose `name` and `namespace` equal the request's
(`break` after the first match). -/
def findMatchingApp (apps : List RemoconApp) (application namespc : String) :
    Option RemoconApp :=
  match apps with
  | [] => none
  | app :: rest =>
    if app.name == application && app.namespc == namespc then some app
    else findMatchingApp rest application namespc

/-- The counting loop of manager.py lines 219-224: the number of tracked
remocon monitors whose status is known, reports a running app, and whose
running app name equals the requested application. -/
def countRunningApp (monitors : List RemoconMonitor) (application : String) : Nat :=
  monitors.foldl
    (fun count remocon_monitor =>
      match remocon_monitor.status with
      | some status =>
        if status.running_app && status.app_name == application then count + 1
        else count
      | none => count)
    0

/-- The comparison `count < max` at manager.py line 225: `max` is the Python
builtin function (the matched quota was stored in `maximum_quota`, not
`max`).  Under CPython 2's cross-type ordering an `int` compares less than
any non-numeric object, so the comparison is `True` for every count. -/
def countLtBuiltinMax (_count : Nat) : Bool :=
  true

/-- Manager.py lines 206-234 as they would execute if `role_and_app_table`
were bound to the role-indexed app table the rest of the method assumes (the
registry design of the spec, §4.4/§9): look up the role, scan its apps for a
name/namespace match, grant unconditionally on `max == 0`, otherwise count
running clients and fall through to line 225's `count < max` comparison.
This isolates the handler's second defect from the missing-attribute one. -/
def rosServiceRequestInteractionBody
    (role_and_app_table : List (String × List RemoconApp))
    (monitors : List RemoconMonitor) (request : Request) :
    RequestInteractionResponse :=
  let response : RequestInteractionResponse :=
    { result := true, error_code := ErrorCode.SUCCESS, message := "" }
  match (role_and_app_table.lookup request.role).bind
      (fun apps => findMatchingApp apps request.application request.namespc) with
  | some app =>
    if app.max == 0 then response
    else
      let count := countRunningApp monitors request.application
      if countLtBuiltinMax count then response
      else
        { result := false
          error_code := ErrorCode.ROLE_APP_QUOTA_REACHED
          message := MSG_ROLE_APP_QUOTA_REACHED }
  | none =>
    { result := false
      error_code := ErrorCode.ROLE_APP_UNAVAILABLE
      message := MSG_ROLE_APP_UNAVAILABLE }

/-- The fields of a `concert_msgs.Interaction` definition that
`_ros_service_set_interactions` touches when logging. -/
structure InteractionMsg where
  display_name : String
  name : String
  role : String
  namespc : String
deriving Repr, DecidableEq

/-- A `concert_srvs.SetInteractionsResponse`. -/
structure SetInteractionsResponse where
  result : Bool
deriving Repr, DecidableEq

/-- The handler `_ros_service_set_interactions` (manager.py lines 182-203), with the
`self.interactions_table.load` call (implemented outside this repository's
source files) abstracted by the `(new, invalid)` pair it returns.  On the
load path the source logs each rejected entry with
`rospy.logwarn("Interactions : failed to load ..." (i.display_name, ...))`
at line 196: the `%` operator is missing, so Python calls the format string
as a function and raises `TypeError` as soon as the rejected list is
non-empty.  The unload path (lines 198-200) logs with a correct format and
always reaches `response.result = True`. -/
def rosServiceSetInteractions (load : Bool)
    (load_result : List InteractionMsg × List InteractionMsg) :
    Except PyError SetInteractionsResponse :=
  if load then
    if load_result.2.isEmpty then Except.ok { result := true }
    else Except.error (PyError.typeError "str object is not callable")
  else
    Except.ok { result := true }

/-! ### Claim theorems about the request handlers -/

/-- An interaction entry for the chat application with a quota of one. -/
def chatAppMaxOne : RemoconApp :=
  { name := "chat_app", namespc := "/chat", max := 1 }

/-- The same interaction entry with `max = 0` (unlimited). -/
def chatAppUnlimited : RemoconApp :=
  { name := "chat_app", namespc := "/chat", max := 0 }

/-- A request that matches the chat entries above under role `operator`. -/
def chatRequest : Request :=
  { role := "operator", application := "chat_app", namespc := "/chat" }

/-- A request matching no loaded interaction. -/
def strayRequest : Request :=
  { role := "visitor", application := "ghost_app", namespc := "/nowhere" }

/-- A second monitor running the chat application. -/
def wRunningMonitorB : RemoconMonitor :=
  { name := "remoconD"
    status := some { uuid := "55556666", platform_info := "pc"
                     running_app := true, app_name := "chat_app" } }

/-- A manager tracking one monitor that runs the chat application. -/
def chatManager : InteractionsManager :=
  { remocon_monitors := [wRunningMonitor] }

/-- A manager tracking no monitors. -/
def emptyManager : InteractionsManager :=
  { remocon_monitors := [] }

/-- C1: at an input where the quota is exhausted — `maximum = 1` with one
tracked client already running the requested application — the claim demands
`result = false` with `ROLE_APP_QUOTA_REACHED`; the handler instead raises
`AttributeError` on the undefined `self.role_and_app_table`, and even with
that attribute repaired the grant path line 225 compares the count against
the Python builtin `max` instead of `maximum_quota`, which is always true,
so the handler grants the request. -/
theorem request_interaction_quota_not_enforced :
    rosServiceRequestInteraction chatManager chatRequest
        = Except.error (PyError.attrError "role_and_app_table") ∧
    countRunningApp [wRunningMonitor] chatRequest.application = chatAppMaxOne.max ∧
    rosServiceRequestInteractionBody [("operator", [chatAppMaxOne])]
        [wRunningMonitor] chatRequest
      = { result := true, error_code := ErrorCode.SUCCESS, message := "" } :=
  ⟨rfl, rfl, rfl⟩

/-- C2: at a request matching no loaded interaction the claim demands a
structured `ROLE_APP_UNAVAILABLE` denial without raising; the handler
instead raises `AttributeError` at line 210 before the lookup can run.  The
repaired-attribute body does return the claimed denial, confirming the
claim describes the intended algorithm. -/
theorem request_interaction_unavailable_raises :
    rosServiceRequestInteraction emptyManager strayRequest
        = Except.error (PyError.attrError "role_and_app_table") ∧
    rosServiceRequestInteractionBody [] [] strayRequest
      = { result := false, error_code := ErrorCode.ROLE_APP_UNAVAILABLE
          message := MSG_ROLE_APP_UNAVAILABLE } :=
  ⟨rfl, rfl⟩

/-- C3: at a request matching an interaction with `maximum = 0` and two
clients already running the application, the claim demands an unconditional
grant; the handler instead raises `AttributeError` at line 210.  The
repaired-attribute body does grant unconditionally, confirming the claim
describes the intended algorithm. -/
theorem request_interaction_unlimited_raises :
    rosServiceRequestInteraction
        { remocon_monitors := [wRunningMonitor, wRunningMonitorB] } chatRequest
        = Except.error (PyError.attrError "role_and_app_table") ∧
    rosServiceRequestInteractionBody [("operator", [chatAppUnlimited])]
        [wRunningMonitor, wRunningMonitorB] chatRequest
      = { result := true, error_code := ErrorCode.SUCCESS, message := "" } :=
  ⟨rfl, rfl⟩

/-- C4: the claim demands that no operation lets an internal error escape as
an unhandled fault; the code violates it twice.  Every call to
`_ros_service_request_interaction` raises `AttributeError` on the undefined
`self.role_and_app_table`, and `_ros_service_set_interactions` with a load
the table partially rejects raises `TypeError` at the logging line 196
(format string called as a function, the `%` being missing) instead of
returning a response. -/
theorem request_handlers_raise_unhandled_faults :
    (∀ (mgr : InteractionsManager) (req : Request),
        rosServiceRequestInteraction mgr req
          = Except.error (PyError.attrError "role_and_app_table")) ∧
    rosServiceSetInteractions true
        ([], [{ display_name := "Chat", name := "chat"
                role := "operator", namespc := "/chat" }])
      = Except.error (PyError.typeError "str object is not callable") ∧
    rosServiceSetInteractions true
        ([{ display_name := "Chat", name := "chat"
            role := "operator", namespc := "/chat" }], [])
      = Except.ok { result := true } ∧
    rosServiceSetInteractions false ([], [])
      = Except.ok { result := true } :=
  ⟨fun _ _ => rfl, rfl, rfl, rfl⟩

end RoconInteractions
